import Mathlib

/-!
Verification of the process-lifecycle engine of jest-process-manager.

The development shallowly embeds `src/index.ts` (together with the defaults
from `src/constants.ts`). Stateful parts are modelled by explicit state
passing: the module registry `servers` is a list of optional handles, the
external world (the port probe result, the readiness poll outcome, the
interactive confirmation answer, the inherited environment) is an oracle
record, and every side effect performed by `setupJestServer`/`teardown`
is recorded in an explicit effect trace.
-/

namespace JPM

/-- Environment mapping, JS-object style: a list of key/value pairs where a
later binding for the same key overrides an earlier one (spread order). -/
abbrev Env := List (String × String)

/-- Lookup in an `Env` with JS-spread semantics: the last binding wins. -/
def envLookup (env : Env) (k : String) : Option String :=
  env.foldl (fun acc p => if p.1 = k then some p.2 else acc) none

/-- Membership of a key in an `Env`. -/
def envHasKey (env : Env) (k : String) : Bool :=
  env.any (fun p => p.1 = k)

/-- Merged server configuration, after `{ ...DEFAULT_CONFIG, ...providedConfig }`.
Field names follow `JestProcessManagerOptions` in `src/types.d.ts`. A falsy
`port` (JS `0`/absent) is represented by `0`; `protocol` and `usedPortAction`
are kept as strings exactly as in the TypeScript source. `optionsEnv` models
`config.options.env` (`none` when no `env` key was passed in `options`). -/
structure Config where
  command : String
  debug : Bool
  launchTimeout : Nat
  host : String
  protocol : String
  port : Nat
  basePath : Option String
  usedPortAction : String
  optionsEnv : Option Env
  deriving DecidableEq

/-- Caller-provided configuration: every field optional, `none` meaning the
key is absent from the provided object (so the default survives the spread). -/
structure ProvidedConfig where
  command : Option String
  debug : Option Bool
  launchTimeout : Option Nat
  host : Option String
  protocol : Option String
  port : Option Nat
  basePath : Option String
  usedPortAction : Option String
  optionsEnv : Option Env
  deriving DecidableEq

/-- A provided configuration with every key absent. -/
def emptyProvided : ProvidedConfig :=
  ⟨none, none, none, none, none, none, none, none, none⟩

/-- Defaults from `src/constants.ts` (`DEFAULT_CONFIG`): note that it supplies
both a default `command` (`npm run start`) and a default `port` (`3000`). -/
def DEFAULT_CONFIG : Config :=
  { command := "npm run start"
    debug := false
    launchTimeout := 5000
    host := "localhost"
    protocol := "tcp"
    port := 3000
    basePath := none
    usedPortAction := "ask"
    optionsEnv := none }

/-- The spread `{ ...DEFAULT_CONFIG, ...providedConfig }` at the top of
`setupJestServer`: a provided key overrides the default, an absent key keeps
the default. `basePath` and `options.env` have no default. -/
def mergeConfig (p : ProvidedConfig) : Config :=
  { command := p.command.getD DEFAULT_CONFIG.command
    debug := p.debug.getD DEFAULT_CONFIG.debug
    launchTimeout := p.launchTimeout.getD DEFAULT_CONFIG.launchTimeout
    host := p.host.getD DEFAULT_CONFIG.host
    protocol := p.protocol.getD DEFAULT_CONFIG.protocol
    port := p.port.getD DEFAULT_CONFIG.port
    basePath := p.basePath
    usedPortAction := p.usedPortAction.getD DEFAULT_CONFIG.usedPortAction
    optionsEnv := p.optionsEnv }

/-- A spawned process handle as tracked in the `servers` registry: the command
it was started with and the environment passed to `spawn`. -/
structure Handle where
  command : String
  env : Env
  deriving DecidableEq

/-- The module-level `servers` array. JS assignment `servers[index] = proc`
can leave holes, hence entries are optional. -/
abbrev Registry := List (Option Handle)

/-- JS sparse-array assignment `servers[index] = h`: pad with holes up to
`index` if needed, then set position `index`. -/
def setIdx (reg : Registry) (index : Nat) (h : Handle) : Registry :=
  let padded :=
    if reg.length ≤ index then reg ++ List.replicate (index + 1 - reg.length) none
    else reg
  padded.set index (some h)

/-- Oracle for the external world during one `setup` run: the result of the
`getIsPortTaken` probe, whether `waitOn` resolves within the timeout, the
operator's answer to the `ask` confirmation, and the inherited
`process.env`. -/
structure World where
  portTaken : Bool
  waitOnOk : Bool
  askKill : Bool
  procEnv : Env
  deriving DecidableEq

/-- Observable side effects of the engine, in program order. `exec` models
running a shell command outside of `spawnd` (a post-teardown command would be
one); the implementation under verification never emits it. -/
inductive Effect where
  | probe (host : String) (port : Nat)
  | killPort (port : Nat)
  | prompt (port : Nat)
  | spawn (command : String) (env : Env)
  | waitOn (url : String) (timeout : Nat)
  | destroy (index : Nat)
  | exec (command : String)
  deriving DecidableEq

/-- Error outcomes of `setupJestServer`. `hardExit` models `process.exit(1)`
on a declined `ask` confirmation (terminal, not a thrown error, but still a
non-success outcome of the run). -/
inductive SetupError where
  | noCommand
  | portUsed (port : Nat)
  | invalidAction
  | timeout (ms : Nat)
  | hardExit (code : Nat)
  deriving DecidableEq

/-- Result of running one entry: final registry, effect trace, and the error
(if any) that surfaced. Registry writes made before an error persist, as they
do for the JS module-level `servers` array. -/
structure RunOutcome where
  reg : Registry
  effects : List Effect
  err : Option SetupError
  deriving DecidableEq

/-- Effect classifiers used in the statements below. -/
def isProbe : Effect → Bool
  | .probe _ _ => true
  | _ => false

def isKill : Effect → Bool
  | .killPort _ => true
  | _ => false

def isSpawn : Effect → Bool
  | .spawn _ _ => true
  | _ => false

def isWaitOn : Effect → Bool
  | .waitOn _ _ => true
  | _ => false

def isExec : Effect → Bool
  | .exec _ => true
  | _ => false

/-- Environment handed to `spawn` by `runServer` (src/index.ts lines 94-102):
`{ ...process.env, ...(config.options?.env ? config.options.env : {}) }` —
the inherited environment with the caller's overrides spread over it. -/
def spawnEnv (c : Config) (w : World) : Env :=
  w.procEnv ++ c.optionsEnv.getD []

/-- Model of `runServer` (src/index.ts lines 86-108): throw `ERROR_NO_COMMAND`
when `config.command` is falsy, otherwise assign `servers[index]` to the
spawned handle. Returns (registry, effects, error). -/
def runServerT (c : Config) (index : Nat) (w : World) (reg : Registry) :
    Registry × List Effect × Option SetupError :=
  if c.command = "" then (reg, [], some SetupError.noCommand)
  else (setIdx reg index ⟨c.command, spawnEnv c w⟩,
        [Effect.spawn c.command (spawnEnv c w)], none)

/-- Keys of the `usedPortHandlers` object, in literal order (src/index.ts
lines 161-196): `error`, `kill`, `ask`, `ignore`. -/
def validActions : List String := ["error", "kill", "ask", "ignore"]

/-- Model of the `usedPortHandlers` dispatch once the port was found taken:
`error` throws `ERROR_PORT_USED`; `kill` looks up and kills the occupant;
`ask` prompts and either kills (answer yes) or calls `process.exit(1)`
(answer no); `ignore` does nothing. -/
def resolveTakenPort (c : Config) (w : World) : List Effect × Option SetupError :=
  if c.usedPortAction = "error" then ([], some (SetupError.portUsed c.port))
  else if c.usedPortAction = "kill" then ([Effect.killPort c.port], none)
  else if c.usedPortAction = "ask" then
    (if w.askKill then ([Effect.prompt c.port, Effect.killPort c.port], none)
     else ([Effect.prompt c.port], some (SetupError.hardExit 1)))
  else ([], none)

/-- Model of `basePathUrlPostfix` (src/index.ts lines 136-144): a truthy
basePath is returned as-is when it already starts with `/` (JS
`basePath.startsWith('/')`, i.e. its first character is `/`), otherwise with
`/` prepended; a falsy basePath (absent or empty) contributes nothing. -/
def basePathUrlSuffix : Option String → String
  | none => ""
  | some b =>
    if b = "" then ""
    else if b.front = '/' then b
    else "/" ++ b

/-- The resource identifier passed to `waitOn` (src/index.ts lines 222-229):
`protocol:host:port` for `tcp`/`socket`, `protocol://host:port` otherwise,
with the basePath suffix appended in both forms. -/
def buildUrl (c : Config) : String :=
  if c.protocol = "tcp" ∨ c.protocol = "socket" then
    c.protocol ++ ":" ++ c.host ++ ":" ++ toString c.port ++ basePathUrlSuffix c.basePath
  else
    c.protocol ++ "://" ++ c.host ++ ":" ++ toString c.port ++ basePathUrlSuffix c.basePath

/-- The spawn-or-skip step inside the port branch (src/index.ts lines
215-220): when the action is `ignore` and the port was taken, nothing is
spawned and no handle is tracked; otherwise `runServer` runs. -/
def spawnPhase (c : Config) (index : Nat) (w : World) (reg : Registry) :
    Registry × List Effect × Option SetupError :=
  if c.usedPortAction = "ignore" ∧ w.portTaken = true then (reg, [], none)
  else runServerT c index w reg

/-- The readiness wait (src/index.ts lines 230-243): on a prior error the run
stops there; otherwise `waitOn` runs and a poll that does not succeed within
`launchTimeout` turns into `ERROR_TIMEOUT`. No cleanup of the port occupant
happens on that failure, and the registry keeps whatever was assigned. -/
def waitPhase (c : Config) (w : World) (pre : List Effect)
    (s : Registry × List Effect × Option SetupError) : RunOutcome :=
  match s with
  | (reg2, sEffs, some e) => ⟨reg2, pre ++ sEffs, some e⟩
  | (reg2, sEffs, none) =>
    if w.waitOnOk then
      ⟨reg2, pre ++ sEffs ++ [Effect.waitOn (buildUrl c) c.launchTimeout], none⟩
    else
      ⟨reg2, pre ++ sEffs ++ [Effect.waitOn (buildUrl c) c.launchTimeout],
        some (SetupError.timeout c.launchTimeout)⟩

/-- The `if (config.port)` branch of `setupJestServer` (src/index.ts lines
208-243): probe the port, run the used-port handler when taken, then
spawn-or-skip, then wait for readiness. -/
def portBranch (c : Config) (index : Nat) (w : World) (reg : Registry) : RunOutcome :=
  match (if w.portTaken then resolveTakenPort c w else ([], none)) with
  | (rEffs, some e) => ⟨reg, Effect.probe c.host c.port :: rEffs, some e⟩
  | (rEffs, none) =>
    waitPhase c w (Effect.probe c.host c.port :: rEffs) (spawnPhase c index w reg)

/-- Body of `setupJestServer` (src/index.ts lines 158-248) on the merged
config: an unrecognized `usedPortAction` fails first; with a truthy port the
port branch runs; with a falsy port `runServer` runs and the entry resolves at
spawn with no probe and no readiness wait. -/
def setupMerged (c : Config) (index : Nat) (w : World) (reg : Registry) : RunOutcome :=
  if validActions.contains c.usedPortAction then
    if c.port ≠ 0 then portBranch c index w reg
    else
      match runServerT c index w reg with
      | (reg2, effs, err) => ⟨reg2, effs, err⟩
  else ⟨reg, [], some SetupError.invalidAction⟩

/-- Model of `setupJestServer` on a caller-provided configuration: merge with
the defaults, then run. -/
def setupJestServer (p : ProvidedConfig) (index : Nat) (w : World) (reg : Registry) :
    RunOutcome :=
  setupMerged (mergeConfig p) index w reg

/-- One-entry `setup` starting from the empty registry (index 0, as
`setup` maps a single provided config to `setupJestServer(config, 0)`). -/
def setup (p : ProvidedConfig) (w : World) : RunOutcome :=
  setupJestServer p 0 w []

/-- Destroy effects of `servers.map(server => server.destroy())`: JS `map`
skips holes of a sparse array, so only assigned entries are destroyed. -/
def destroyEffs : Registry → Nat → List Effect
  | [], _ => []
  | some _ :: rest, i => Effect.destroy i :: destroyEffs rest (i + 1)
  | none :: rest, i => destroyEffs rest (i + 1)

/-- Model of `teardown` (src/index.ts lines 254-258): when the registry is
non-empty, destroy every tracked handle in parallel. `destroy` swallows kill
errors (`.catch(() => {})` in `spawnd`), so teardown is total and never
surfaces an error; the registry itself is never cleared. -/
def teardown (reg : Registry) : Registry × List Effect :=
  if reg.length = 0 then (reg, []) else (reg, destroyEffs reg 0)

/-- Model of calling the API declared in `src/types.d.ts` line 134
(`teardown(command?: string)`) against the implementation: the implementation
declares no parameter, so a JS call with an argument simply ignores it. -/
def teardownWithCommand (_cmd : String) (reg : Registry) : Registry × List Effect :=
  teardown reg

/-- Decides whether a string has exactly one leading slash: it starts with
`/` and its second character, when there is one, is not `/` again. -/
def hasSingleLeadingSlash (s : String) : Bool :=
  match s.data with
  | '/' :: c :: _ => !(c = '/')
  | ['/'] => true
  | _ => false

/-- What `getServers` hands back: either the live registry array itself
(object identity with `servers`) or a copy frozen at call time. The source
(src/index.ts lines 250-252) is `return servers` — the live array. -/
inductive GetServersResult where
  | live
  | copy (snapshot : Registry)
  deriving DecidableEq

/-- Model of `getServers`: `return servers` returns the registry array
object itself, not a copy of its contents. -/
def getServers : GetServersResult := GetServersResult.live

/-- Reading through a value previously returned by `getServers`, given the
registry contents `current` at read time: an alias of the live array shows
the current contents, a copy shows the snapshot. -/
def observe (r : GetServersResult) (current : Registry) : Registry :=
  match r with
  | .live => current
  | .copy s => s

/-- Mutating the registry through a value previously returned by
`getServers`: writing through an alias of the live array replaces the
registry contents, writing into a copy leaves the registry alone. -/
def writeThrough (r : GetServersResult) (current newContents : Registry) : Registry :=
  match r with
  | .live => newContents
  | .copy _ => current

/-! Concrete scenarios used by witnesses and counterexamples. -/

/-- A world with a free port, a succeeding readiness poll and an empty
inherited environment. -/
def wQuiet : World := ⟨false, true, true, []⟩

/-- A world with a free port where the readiness poll never succeeds within
the timeout. -/
def wStuck : World := ⟨false, false, true, []⟩

/-- A world where the probe finds the port occupied and the occupant answers
the readiness poll. -/
def wTaken : World := ⟨true, true, true, []⟩

/-! Helper lemmas about the environment merge. -/

/-- Folding the lookup step over a list, started from an arbitrary
accumulator, either finds a binding in the list or keeps the accumulator. -/
theorem envFoldl_acc (b : Env) (k : String) :
    ∀ acc : Option String,
      b.foldl (fun acc p => if p.1 = k then some p.2 else acc) acc =
        match b.foldl (fun acc p => if p.1 = k then some p.2 else acc) none with
        | some v => some v
        | none => acc := by
  induction b with
  | nil => intro acc; rfl
  | cons hd tl ih =>
    intro acc
    simp only [List.foldl_cons]
    by_cases h : hd.1 = k
    · rw [if_pos h, if_pos h, ih (some hd.2)]
      cases tl.foldl (fun acc p => if p.1 = k then some p.2 else acc) none <;> rfl
    · rw [if_neg h, if_neg h]
      exact ih acc

/-- Lookup in a spread `a ++ b`: a binding in `b` wins, otherwise the lookup
falls back to `a`. -/
theorem envLookup_append (a b : Env) (k : String) :
    envLookup (a ++ b) k =
      match envLookup b k with
      | some v => some v
      | none => envLookup a k := by
  unfold envLookup
  rw [List.foldl_append]
  exact envFoldl_acc b k _

/-- A key that does not occur in an environment looks up to nothing. -/
theorem envLookup_eq_none (b : Env) (k : String) (h : envHasKey b k = false) :
    envLookup b k = none := by
  induction b with
  | nil => rfl
  | cons hd tl ih =>
    simp only [envHasKey, List.any_cons, Bool.or_eq_false_iff,
      decide_eq_false_iff_not] at h
    unfold envLookup
    simp only [List.foldl_cons, if_neg h.1]
    have := ih (by simpa [envHasKey] using h.2)
    unfold envLookup at this
    rw [envFoldl_acc, this]

/-! Helper lemmas about teardown. -/

/-- The destroy loop only emits `destroy` effects, never an `exec`. -/
theorem destroyEffs_no_exec (reg : Registry) :
    ∀ i, (destroyEffs reg i).any isExec = false := by
  induction reg with
  | nil => intro i; rfl
  | cons hd tl ih =>
    intro i
    cases hd with
    | none => exact ih (i + 1)
    | some h => simp only [destroyEffs, List.any_cons, ih (i + 1), isExec,
        Bool.or_self]

/-- Teardown leaves the registry untouched. -/
theorem teardown_fst (reg : Registry) : (teardown reg).1 = reg := by
  unfold teardown
  split <;> rfl

/-! Helper lemmas computing `setupMerged` in the scenarios the claims are
about. -/

/-- Occupied port with the `ignore` action: nothing is spawned, nothing is
tracked, and the run still ends in the readiness wait. -/
theorem setupMerged_ignore_taken (c : Config) (index : Nat) (w : World) (reg : Registry)
    (hig : c.usedPortAction = "ignore") (hport : c.port ≠ 0) (htaken : w.portTaken = true) :
    setupMerged c index w reg =
      ⟨reg, [Effect.probe c.host c.port, Effect.waitOn (buildUrl c) c.launchTimeout],
        if w.waitOnOk then none else some (SetupError.timeout c.launchTimeout)⟩ := by
  have hv : validActions.contains c.usedPortAction = true := by rw [hig]; decide
  unfold setupMerged
  rw [if_pos hv, if_pos hport]
  unfold portBranch
  rw [htaken, if_pos rfl]
  unfold resolveTakenPort
  rw [hig]
  rw [if_neg (by decide : ¬("ignore" : String) = "error")]
  rw [if_neg (by decide : ¬("ignore" : String) = "kill")]
  rw [if_neg (by decide : ¬("ignore" : String) = "ask")]
  dsimp only
  unfold spawnPhase
  rw [if_pos ⟨hig, htaken⟩]
  unfold waitPhase
  dsimp only
  cases hwo : w.waitOnOk <;> rfl

/-- Free port, non-empty command: one process is spawned and tracked, and the
run ends in the readiness wait. -/
theorem setupMerged_free_spawn (c : Config) (index : Nat) (w : World) (reg : Registry)
    (hv : validActions.contains c.usedPortAction = true) (hport : c.port ≠ 0)
    (hfree : w.portTaken = false) (hcmd : c.command ≠ "") :
    setupMerged c index w reg =
      ⟨setIdx reg index ⟨c.command, spawnEnv c w⟩,
        [Effect.probe c.host c.port, Effect.spawn c.command (spawnEnv c w),
         Effect.waitOn (buildUrl c) c.launchTimeout],
        if w.waitOnOk then none else some (SetupError.timeout c.launchTimeout)⟩ := by
  unfold setupMerged
  rw [if_pos hv, if_pos hport]
  unfold portBranch
  rw [hfree, if_neg (by decide : ¬((false : Bool) = true))]
  dsimp only
  unfold spawnPhase
  have hno : ¬(c.usedPortAction = "ignore" ∧ w.portTaken = true) := by
    intro hc
    rw [hfree] at hc
    exact absurd hc.2 (by decide)
  rw [if_neg hno]
  unfold runServerT
  rw [if_neg hcmd]
  unfold waitPhase
  dsimp only
  cases hwo : w.waitOnOk <;> rfl

/-- Free port, empty command: the run fails with `ERROR_NO_COMMAND` right
after the probe, before any spawn and before any readiness wait. -/
theorem setupMerged_free_noCommand (c : Config) (index : Nat) (w : World) (reg : Registry)
    (hv : validActions.contains c.usedPortAction = true) (hport : c.port ≠ 0)
    (hfree : w.portTaken = false) (hcmd : c.command = "") :
    setupMerged c index w reg =
      ⟨reg, [Effect.probe c.host c.port], some SetupError.noCommand⟩ := by
  unfold setupMerged
  rw [if_pos hv, if_pos hport]
  unfold portBranch
  rw [hfree, if_neg (by decide : ¬((false : Bool) = true))]
  dsimp only
  unfold spawnPhase
  have hno : ¬(c.usedPortAction = "ignore" ∧ w.portTaken = true) := by
    intro hc
    rw [hfree] at hc
    exact absurd hc.2 (by decide)
  rw [if_neg hno]
  unfold runServerT
  rw [if_pos hcmd]
  unfold waitPhase
  dsimp only
  rfl

/-- Falsy port, non-empty command: the entry resolves right at spawn, with no
probe and no readiness wait. -/
theorem setupMerged_noPort_spawn (c : Config) (index : Nat) (w : World) (reg : Registry)
    (hv : validActions.contains c.usedPortAction = true) (hp0 : c.port = 0)
    (hcmd : c.command ≠ "") :
    setupMerged c index w reg =
      ⟨setIdx reg index ⟨c.command, spawnEnv c w⟩,
        [Effect.spawn c.command (spawnEnv c w)], none⟩ := by
  have hnp : ¬(c.port ≠ 0) := fun h => h hp0
  unfold setupMerged
  rw [if_pos hv, if_neg hnp]
  unfold runServerT
  rw [if_neg hcmd]

/-- Falsy port, empty command: the run fails with `ERROR_NO_COMMAND` and
performs nothing at all. -/
theorem setupMerged_noPort_noCommand (c : Config) (index : Nat) (w : World) (reg : Registry)
    (hv : validActions.contains c.usedPortAction = true) (hp0 : c.port = 0)
    (hcmd : c.command = "") :
    setupMerged c index w reg = ⟨reg, [], some SetupError.noCommand⟩ := by
  have hnp : ¬(c.port ≠ 0) := fun h => h hp0
  unfold setupMerged
  rw [if_pos hv, if_neg hnp]
  unfold runServerT
  rw [if_pos hcmd]

/-- Whenever the merged configuration has a truthy port (and a recognized
action), the run performs the port probe. -/
theorem probe_mem_setupMerged (c : Config) (index : Nat) (w : World) (reg : Registry)
    (hv : validActions.contains c.usedPortAction = true) (hport : c.port ≠ 0) :
    Effect.probe c.host c.port ∈ (setupMerged c index w reg).effects := by
  unfold setupMerged
  rw [if_pos hv, if_pos hport]
  unfold portBranch
  cases htk : w.portTaken
  · rw [if_neg (by decide : ¬((false : Bool) = true))]
    dsimp only
    rcases hs : spawnPhase c index w reg with ⟨reg2, sEffs, serr⟩
    unfold waitPhase
    cases serr
    · dsimp only
      cases hwo : w.waitOnOk <;>
        exact List.mem_append_left _ (List.mem_append_left _ (List.mem_cons_self _ _))
    · dsimp only
      exact List.mem_append_left _ (List.mem_cons_self _ _)
  · rw [if_pos rfl]
    rcases hres : resolveTakenPort c w with ⟨rEffs, oerr⟩
    cases oerr
    · dsimp only
      rcases hs : spawnPhase c index w reg with ⟨reg2, sEffs, serr⟩
      unfold waitPhase
      cases serr
      · dsimp only
        cases hwo : w.waitOnOk <;>
          exact List.mem_append_left _ (List.mem_append_left _ (List.mem_cons_self _ _))
      · dsimp only
        exact List.mem_append_left _ (List.mem_cons_self _ _)
    · dsimp only
      exact List.mem_cons_self _ _

/-! Concrete provided configurations for the counterexamples and witnesses. -/

/-- Provided config `{command: "node server.js", port: 4000}`. -/
def cfgPort4000 : ProvidedConfig :=
  { emptyProvided with command := some "node server.js", port := some 4000 }

/-- Provided config `{command: "node app.js", port: 4100}`. -/
def cfgPort4100 : ProvidedConfig :=
  { emptyProvided with command := some "node app.js", port := some 4100 }

/-- Provided config `{command: "node server.js"}` — no port key at all. -/
def cfgNoPort : ProvidedConfig :=
  { emptyProvided with command := some "node server.js" }

/-- Provided config `{port: 0}` — no command key at all and a falsy port. -/
def cfgNoCommand : ProvidedConfig :=
  { emptyProvided with port := some 0 }

/-- Provided config `{command: "", port: 4200}` — an empty command. -/
def cfgEmptyCommand : ProvidedConfig :=
  { emptyProvided with command := some "", port := some 4200 }

/-- Provided config `{command: "node server.js", port: 4300, usedPortAction: "ignore"}`. -/
def cfgIgnore4300 : ProvidedConfig :=
  { emptyProvided with command := some "node server.js", port := some 4300, usedPortAction := some "ignore" }

/-- Provided config `{command: "", port: 4400, usedPortAction: "ignore"}`. -/
def cfgIgnoreEmpty : ProvidedConfig :=
  { emptyProvided with command := some "", port := some 4400, usedPortAction := some "ignore" }

/-! Claim theorems. -/

/-- C1, counterexample. The claim says a readiness poll that does not succeed
within `launchTimeout` makes `setup` kill whatever is still bound to the port
before surfacing `ERROR_TIMEOUT`, leaving no managed process bound to it.
Concretely, with `{command: "node server.js", port: 4000}`, a free port at
probe time and a poll that never succeeds, the code surfaces the timeout
without any kill, and the process it spawned stays tracked in the registry. -/
theorem c1_counterexample :
    (setup cfgPort4000 wStuck).err = some (SetupError.timeout 5000) ∧
    ((setup cfgPort4000 wStuck).effects.any isKill) = false ∧
    (setup cfgPort4000 wStuck).reg ≠ [] := by
  decide

/-- C1, amended: when the configured port is free at probe time and the
readiness poll does not succeed within `launchTimeout`, `setup` fails with the
LaunchTimeout kind (`ERROR_TIMEOUT`), but it performs no kill of any process
bound to the port, and the process it spawned remains in the registry. -/
theorem c1_no_timeout_cleanup (p : ProvidedConfig) (w : World)
    (hv : validActions.contains (mergeConfig p).usedPortAction = true)
    (hport : (mergeConfig p).port ≠ 0)
    (hcmd : (mergeConfig p).command ≠ "")
    (hfree : w.portTaken = false)
    (hwo : w.waitOnOk = false) :
    (setup p w).err = some (SetupError.timeout (mergeConfig p).launchTimeout) ∧
    (setup p w).effects.any isKill = false ∧
    (setup p w).reg = [some ⟨(mergeConfig p).command, spawnEnv (mergeConfig p) w⟩] := by
  unfold setup setupJestServer
  rw [setupMerged_free_spawn _ 0 w [] hv hport hfree hcmd, hwo]
  exact ⟨rfl, rfl, rfl⟩

/-- C1, witness for the amended theorem at a concrete input. -/
theorem c1_witness :
    ((mergeConfig cfgPort4100).port ≠ 0 ∧
      wStuck.portTaken = false ∧ wStuck.waitOnOk = false) ∧
    ((setup cfgPort4100 wStuck).err = some (SetupError.timeout 5000) ∧
      (setup cfgPort4100 wStuck).effects.any isKill = false ∧
      (setup cfgPort4100 wStuck).reg =
        [some ⟨(mergeConfig cfgPort4100).command, spawnEnv (mergeConfig cfgPort4100) wStuck⟩]) :=
  ⟨⟨by decide, by decide, by decide⟩,
    c1_no_timeout_cleanup cfgPort4100 wStuck (by decide) (by decide) (by decide) (by decide)
      (by decide)⟩

/-- C2, counterexample. The claim says that with no caller-supplied port,
`setup` performs no port probe and no readiness poll. Concretely, providing
only `{command: "node server.js"}` makes the merge pick up the default
`port: 3000` from `DEFAULT_CONFIG`, and the run probes the port and polls for
readiness. -/
theorem c2_counterexample :
    ((setup cfgNoPort wQuiet).effects.any isProbe) = true ∧
    ((setup cfgNoPort wQuiet).effects.any isWaitOn) = true := by
  decide

/-- C2, amended: a caller who omits `port` gets the default port 3000 from
`DEFAULT_CONFIG`, and `setup` does probe that port (and then readiness-poll
it); the probe and the poll are skipped, with the entry resolving right at
spawn, only when the effective merged port is falsy (0). -/
theorem c2_default_port (p : ProvidedConfig) (w : World)
    (hv : validActions.contains (mergeConfig p).usedPortAction = true) :
    (p.port = none →
      (mergeConfig p).port = 3000 ∧
      Effect.probe (mergeConfig p).host (mergeConfig p).port ∈ (setup p w).effects) ∧
    ((mergeConfig p).port = 0 →
      (setup p w).effects.any isProbe = false ∧
      (setup p w).effects.any isWaitOn = false ∧
      ((mergeConfig p).command ≠ "" → (setup p w).err = none)) := by
  constructor
  · intro hp
    have h3 : (mergeConfig p).port = 3000 := by
      simp [mergeConfig, hp, DEFAULT_CONFIG]
    refine ⟨h3, ?_⟩
    have hport : (mergeConfig p).port ≠ 0 := by rw [h3]; decide
    exact probe_mem_setupMerged _ 0 w [] hv hport
  · intro hp0
    by_cases hcmd : (mergeConfig p).command = ""
    · unfold setup setupJestServer
      rw [setupMerged_noPort_noCommand _ 0 w [] hv hp0 hcmd]
      exact ⟨rfl, rfl, fun hc => absurd hcmd hc⟩
    · unfold setup setupJestServer
      rw [setupMerged_noPort_spawn _ 0 w [] hv hp0 hcmd]
      exact ⟨rfl, rfl, fun _ => rfl⟩

/-- C2, witness for the amended theorem at concrete inputs. -/
theorem c2_witness :
    (validActions.contains (mergeConfig cfgNoPort).usedPortAction = true) ∧
    cfgNoPort.port = none ∧
    (mergeConfig cfgNoPort).port = 3000 ∧
    Effect.probe (mergeConfig cfgNoPort).host (mergeConfig cfgNoPort).port ∈
      (setup cfgNoPort wQuiet).effects :=
  ⟨by decide, by decide, by decide,
    ((c2_default_port cfgNoPort wQuiet (by decide)).1 (by decide)).2⟩

/-- C3, counterexample. The claim says the registry is empty after one
teardown call and that a second call is a no-op. Concretely, with one tracked
handle the registry still holds that handle after the first call, and the
second call again performs a destroy on it. -/
theorem c3_counterexample :
    (teardown [some ⟨"node server.js", []⟩]).1 ≠ [] ∧
    (teardown (teardown [some ⟨"node server.js", []⟩]).1).2 = [Effect.destroy 0] := by
  decide

/-- C3, amended: `teardown` never surfaces an error (each handle's `destroy`
swallows kill failures, so the model is total), and calling it twice in
succession gives the same outcome as calling it once — but not because the
registry was emptied: the registry is left unchanged and the second call
repeats the same destroy work. -/
theorem c3_teardown_not_clearing : ∀ reg : Registry,
    (teardown reg).1 = reg ∧ teardown (teardown reg).1 = teardown reg := by
  intro reg
  refine ⟨teardown_fst reg, ?_⟩
  rw [teardown_fst]

/-- C4, counterexample. The claim says a configuration with an absent command
fails with `ERROR_NO_COMMAND` before any spawn. Concretely, providing no
`command` at all (with a falsy port to reach the spawn path directly) makes
the merge pick up `command: 'npm run start'` from `DEFAULT_CONFIG`, and the
entry spawns that default command without any error. -/
theorem c4_counterexample :
    (setup cfgNoCommand wQuiet).err = none ∧
    ((setup cfgNoCommand wQuiet).effects.any isSpawn) = true := by
  decide

/-- C4, amended: only a configuration whose effective merged command is the
empty string fails with the NoCommand kind (`ERROR_NO_COMMAND`) before any
spawn attempt, with nothing spawned or tracked for that entry; a caller who
omits `command` entirely gets the default `npm run start` from
`DEFAULT_CONFIG` spawned instead. -/
theorem c4_default_command (p : ProvidedConfig) (w : World)
    (hv : validActions.contains (mergeConfig p).usedPortAction = true)
    (hfree : w.portTaken = false) :
    ((mergeConfig p).command = "" →
      (setup p w).err = some SetupError.noCommand ∧
      (setup p w).effects.any isSpawn = false ∧
      (setup p w).reg = []) ∧
    (p.command = none → (mergeConfig p).command = "npm run start") := by
  constructor
  · intro hcmd
    unfold setup setupJestServer
    by_cases hp : (mergeConfig p).port = 0
    · rw [setupMerged_noPort_noCommand _ 0 w [] hv hp hcmd]
      exact ⟨rfl, rfl, rfl⟩
    · rw [setupMerged_free_noCommand _ 0 w [] hv hp hfree hcmd]
      exact ⟨rfl, rfl, rfl⟩
  · intro hc
    simp [mergeConfig, hc, DEFAULT_CONFIG]

/-- C4, witness for the amended theorem at a concrete input. -/
theorem c4_witness :
    (validActions.contains (mergeConfig cfgEmptyCommand).usedPortAction = true) ∧
    wQuiet.portTaken = false ∧
    (mergeConfig cfgEmptyCommand).command = "" ∧
    (setup cfgEmptyCommand wQuiet).err = some SetupError.noCommand ∧
    (setup cfgEmptyCommand wQuiet).reg = [] :=
  ⟨by decide, by decide, by decide,
    ((c4_default_command cfgEmptyCommand wQuiet (by decide) (by decide)).1 (by decide)).1,
    ((c4_default_command cfgEmptyCommand wQuiet (by decide) (by decide)).1 (by decide)).2.2⟩

/-- C5: with a truthy configured port found occupied at probe time and the
`ignore` action, `setup` spawns nothing and tracks no handle for the entry,
but still performs the readiness wait against the configured resource, so the
entry resolves exactly when the poll succeeds and fails with the
LaunchTimeout kind otherwise. -/
theorem c5_ignore_waits (p : ProvidedConfig) (w : World)
    (hport : (mergeConfig p).port ≠ 0)
    (hig : (mergeConfig p).usedPortAction = "ignore")
    (htaken : w.portTaken = true) :
    (setup p w).reg = [] ∧
    (setup p w).effects.any isSpawn = false ∧
    Effect.waitOn (buildUrl (mergeConfig p)) (mergeConfig p).launchTimeout ∈
      (setup p w).effects ∧
    (setup p w).err =
      (if w.waitOnOk then none else some (SetupError.timeout (mergeConfig p).launchTimeout)) := by
  unfold setup setupJestServer
  rw [setupMerged_ignore_taken _ 0 w [] hig hport htaken]
  exact ⟨rfl, rfl, List.mem_cons_of_mem _ (List.mem_cons_self _ _), rfl⟩

/-- C5, witness at a concrete input: `{command: "node server.js", port: 4300,
usedPortAction: "ignore"}` with the port occupied and a reachable occupant. -/
theorem c5_witness :
    ((mergeConfig cfgIgnore4300).port ≠ 0 ∧
      (mergeConfig cfgIgnore4300).usedPortAction = "ignore" ∧
      wTaken.portTaken = true) ∧
    ((setup cfgIgnore4300 wTaken).reg = [] ∧
      (setup cfgIgnore4300 wTaken).effects.any isSpawn = false ∧
      (setup cfgIgnore4300 wTaken).err = none) :=
  ⟨⟨by decide, by decide, by decide⟩,
    (c5_ignore_waits cfgIgnore4300 wTaken (by decide) (by decide) (by decide)).1,
    (c5_ignore_waits cfgIgnore4300 wTaken (by decide) (by decide) (by decide)).2.1,
    by decide⟩

/-- C6: the declaration `teardown(command?: string)` in `src/types.d.ts` line
134 (and the spec) promise an optional post-teardown command executed after
the stops, with its failure logged only. The implementation in `src/index.ts`
lines 254-258 declares no parameter: a call that passes a command behaves
exactly like a call without one, and no `exec`-style effect ever happens —
the post-teardown command is silently dropped. -/
theorem c6_no_post_command : ∀ (cmd : String) (reg : Registry),
    teardownWithCommand cmd reg = teardown reg ∧
    (teardownWithCommand cmd reg).2.any isExec = false := by
  intro cmd reg
  refine ⟨rfl, ?_⟩
  show (teardown reg).2.any isExec = false
  unfold teardown
  split
  · rfl
  · exact destroyEffs_no_exec reg 0

/-- C7: the environment handed to the spawned process is the inherited
`process.env` with `config.options.env` spread over it. An inherited variable
whose key does not occur among the overrides is looked up unchanged, and an
override always wins; the spawn effect emitted by `runServer` carries exactly
this merged environment. -/
theorem c7_env_merge (c : Config) (index : Nat) (w : World) (reg : Registry) (k : String)
    (hcmd : c.command ≠ "") :
    (runServerT c index w reg).2.1 = [Effect.spawn c.command (spawnEnv c w)] ∧
    (envHasKey (c.optionsEnv.getD []) k = false →
      envLookup (spawnEnv c w) k = envLookup w.procEnv k) ∧
    ((envLookup (c.optionsEnv.getD []) k).isSome = true →
      envLookup (spawnEnv c w) k = envLookup (c.optionsEnv.getD []) k) := by
  refine ⟨?_, ?_, ?_⟩
  · unfold runServerT
    rw [if_neg hcmd]
  · intro hk
    unfold spawnEnv
    rw [envLookup_append, envLookup_eq_none _ _ hk]
  · intro hk
    unfold spawnEnv
    rw [envLookup_append]
    rcases ho : envLookup (c.optionsEnv.getD []) k with _ | v
    · rw [ho] at hk
      exact absurd hk (by decide)
    · rfl

/-- The merged configuration used by the C7 witness: overrides set `FOO`. -/
def cfgEnv : Config :=
  { DEFAULT_CONFIG with command := "node server.js", optionsEnv := some [("FOO", "bar")] }

/-- The world used by the C7 witness: the inherited environment defines
`PATH` and an inherited value of `FOO`. -/
def wEnv : World := ⟨false, true, true, [("PATH", "/usr/bin"), ("FOO", "inherited")]⟩

/-- C7, witness: at the concrete config and world, the inherited `PATH` (not
overridden) stays visible to the child, and the `FOO` override wins. -/
theorem c7_witness :
    cfgEnv.command ≠ "" ∧
    (envHasKey (cfgEnv.optionsEnv.getD []) "PATH" = false →
      envLookup (spawnEnv cfgEnv wEnv) "PATH" = envLookup wEnv.procEnv "PATH") ∧
    ((envLookup (cfgEnv.optionsEnv.getD []) "FOO").isSome = true →
      envLookup (spawnEnv cfgEnv wEnv) "FOO" = envLookup (cfgEnv.optionsEnv.getD []) "FOO") ∧
    envLookup (spawnEnv cfgEnv wEnv) "PATH" = some "/usr/bin" ∧
    envLookup (spawnEnv cfgEnv wEnv) "FOO" = some "bar" :=
  ⟨by decide,
    (c7_env_merge cfgEnv 0 wEnv [] "PATH" (by decide)).2.1,
    (c7_env_merge cfgEnv 0 wEnv [] "FOO" (by decide)).2.2,
    by decide, by decide⟩

/-- C8, counterexample. The claim says a supplied basePath is appended with
exactly one leading slash whether or not the caller wrote one. Concretely,
the basePath `//api` is kept verbatim, so the appended suffix starts with two
slashes. -/
theorem c8_counterexample :
    basePathUrlSuffix (some "//api") = "//api" ∧
    hasSingleLeadingSlash (basePathUrlSuffix (some "//api")) = false := by
  constructor
  · rfl
  · rfl

/-- C8, amended: for the TCP/socket protocols the resource identifier is
`protocol:host:port` and for the other protocols `protocol://host:port`, in
both cases followed by the basePath suffix; a supplied non-empty basePath is
appended verbatim when its first character is already `/` (even if it starts
with several slashes) and with a single `/` prepended otherwise, and an
absent basePath contributes nothing. -/
theorem c8_url_shape (c : Config) (b : String) (hb : b ≠ "") :
    ((basePathUrlSuffix (some b) = b ∧ b.front = '/') ∨
      (basePathUrlSuffix (some b) = "/" ++ b ∧ b.front ≠ '/')) ∧
    basePathUrlSuffix none = "" ∧
    (c.protocol = "tcp" ∨ c.protocol = "socket" →
      buildUrl c = c.protocol ++ ":" ++ c.host ++ ":" ++ toString c.port ++
        basePathUrlSuffix c.basePath) ∧
    (¬(c.protocol = "tcp" ∨ c.protocol = "socket") →
      buildUrl c = c.protocol ++ "://" ++ c.host ++ ":" ++ toString c.port ++
        basePathUrlSuffix c.basePath) := by
  refine ⟨?_, rfl, ?_, ?_⟩
  · by_cases hf : b.front = '/'
    · left
      refine ⟨?_, hf⟩
      unfold basePathUrlSuffix
      dsimp only
      rw [if_neg hb, if_pos hf]
    · right
      refine ⟨?_, hf⟩
      unfold basePathUrlSuffix
      dsimp only
      rw [if_neg hb, if_neg hf]
  · intro hp
    unfold buildUrl
    rw [if_pos hp]
  · intro hp
    unfold buildUrl
    rw [if_neg hp]

/-- C8, witness: the amended theorem at basePath `api` (slash added) under
the default `tcp` protocol. -/
theorem c8_witness :
    ("api" : String) ≠ "" ∧
    basePathUrlSuffix (some "api") = "/" ++ "api" ∧
    buildUrl { DEFAULT_CONFIG with basePath := some "api" } =
      "tcp" ++ ":" ++ "localhost" ++ ":" ++ toString 3000 ++
        basePathUrlSuffix (some "api") :=
  ⟨by decide,
    by decide,
    (c8_url_shape { DEFAULT_CONFIG with basePath := some "api" } "api" (by decide)).2.2.1
      (by decide)⟩

/-- C9, counterexample. The claim says `getServers` returns a read-only
snapshot. Concretely, take the value `getServers` returns while the registry
is empty: once the registry later holds a handle, reading through that same
returned value shows the new handle (later changes are observable), and
clearing through the returned value empties the registry itself (caller
mutations alter the registry). -/
theorem c9_counterexample :
    observe getServers [some ⟨"node app.js", []⟩] ≠ ([] : Registry) ∧
    writeThrough getServers [some ⟨"node app.js", []⟩] [] = ([] : Registry) := by
  constructor
  · intro h
    exact absurd h (by decide)
  · rfl

/-- C9, amended: `getServers` returns the live registry array itself (the
source is `return servers`), not a snapshot: reading through the returned
value always shows the current registry contents, and writing through it
replaces the registry contents. -/
theorem c9_live_registry : ∀ cur newContents : Registry,
    observe getServers cur = cur ∧ writeThrough getServers cur newContents = newContents :=
  fun _ _ => ⟨rfl, rfl⟩

/-- C10: with a truthy port found occupied at probe time, the `ignore` action
and an empty command, `setup` does not fail with the NoCommand kind — the
command check lives inside `runServer`, which the ignore-on-occupied-port
branch skips — nothing is spawned, and when the occupant answers the
readiness poll the entry resolves successfully. -/
theorem c10_ignore_skip_spawn (p : ProvidedConfig) (w : World)
    (hport : (mergeConfig p).port ≠ 0)
    (hig : (mergeConfig p).usedPortAction = "ignore")
    (htaken : w.portTaken = true)
    (hcmd : (mergeConfig p).command = "") :
    (setup p w).err ≠ some SetupError.noCommand ∧
    (setup p w).effects.any isSpawn = false ∧
    (w.waitOnOk = true → (setup p w).err = none) := by
  unfold setup setupJestServer
  rw [setupMerged_ignore_taken _ 0 w [] hig hport htaken]
  refine ⟨?_, rfl, ?_⟩
  · cases hwo : w.waitOnOk
    · intro h
      exact SetupError.noConfusion (Option.some.inj h)
    · intro h
      exact Option.noConfusion h
  · intro hwo
    rw [hwo]
    rfl

/-- C10, witness: `{command: "", port: 4400, usedPortAction: "ignore"}` with
the port occupied and the occupant reachable — setup succeeds despite the
empty command. -/
theorem c10_witness :
    ((mergeConfig cfgIgnoreEmpty).port ≠ 0 ∧
      (mergeConfig cfgIgnoreEmpty).usedPortAction = "ignore" ∧
      wTaken.portTaken = true ∧
      (mergeConfig cfgIgnoreEmpty).command = "") ∧
    ((setup cfgIgnoreEmpty wTaken).err ≠ some SetupError.noCommand ∧
      (setup cfgIgnoreEmpty wTaken).err = none) :=
  ⟨⟨by decide, by decide, by decide, by decide⟩,
    (c10_ignore_skip_spawn cfgIgnoreEmpty wTaken (by decide) (by decide) (by decide)
        (by decide)).1,
    (c10_ignore_skip_spawn cfgIgnoreEmpty wTaken (by decide) (by decide) (by decide)
        (by decide)).2.2 (by decide)⟩

end JPM
